import Mathlib

deriving instance DecidableEq for Except

/-!
Shallow embedding of `src/detection/process_video.py` (MegaDetector video pipeline
orchestrator) and proofs about its cleanup policy, caching, rendering and
folder-mode behaviour.

Filesystem and subprocess effects are made explicit: each run produces a trace of
`Effect`s plus an `Except`-style outcome.  External collaborators
(`video_to_frames`, `run_detector_batch`, `visualize_detector_output`,
`frames_to_video`, `video_folder_to_frames`) are abstracted through an `Env`
record supplying their observable outputs; operations that can raise carry an
explicit failure switch in `Env`.  Python strings are modelled as Lean `String`s,
frame rates as rationals.
-/

namespace MegaDetector

/-- os.path.join for the POSIX-style relative second components used throughout
the script. -/
def joinPath (a b : String) : String := a ++ "/" ++ b

/-- Split a character list at every occurrence of `sep` (the list-level core of
Python `str.split` on one character). -/
def splitOnChar (sep : Char) : List Char → List (List Char)
  | [] => [[]]
  | c :: rest =>
      match splitOnChar sep rest with
      | [] => [[c]]
      | h :: t => if c = sep then [] :: h :: t else (c :: h) :: t

/-- os.path.basename: the final path component. -/
def basename (p : String) : String := String.mk ((splitOnChar '/' p.data).getLastD [])

/-- os.path.dirname: everything before the final path component. -/
def dirname (p : String) : String :=
  String.mk (List.intercalate ['/'] ((splitOnChar '/' p.data).dropLast))

/-- Python `str.startswith` (process_video.py line 374): character-level prefix
test. -/
def pyStartswith (s pre : String) : Bool := pre.data.isPrefixOf s.data

/-- Python `str.endswith` (line 243): character-level suffix test. -/
def pyEndswith (s suf : String) : Bool := suf.data.isSuffixOf s.data

/-- Fuel-bounded core of Python `str.replace` over character lists: scan left to
right, replacing each non-overlapping occurrence of `pattern`. -/
def replaceFuel (pattern repl : List Char) : ℕ → List Char → List Char
  | _, [] => []
  | 0, l => l
  | fuel+1, c :: rest =>
      if pattern.isPrefixOf (c :: rest) ∧ pattern ≠ [] then
        repl ++ replaceFuel pattern repl fuel (List.drop (pattern.length - 1) rest)
      else c :: replaceFuel pattern repl fuel rest

/-- Python `str.replace` (line 245): replace every non-overlapping occurrence,
left to right (the pattern the script uses is nonempty). -/
def pyReplace (s pattern repl : String) : String :=
  String.mk (replaceFuel pattern.data repl.data s.data.length s.data)

/-- os.path.relpath(p, base) in the only situation the script uses it: `p` lies
strictly below `base`, i.e. `p = base ++ "/" ++ r`; the result is `r` (drop the
base and the separator). -/
def relpathUnder (base p : String) : String := String.mk (p.data.drop (base.data.length + 1))

/-- The `ProcessVideoOptions` class (lines 38-95), with its defaults.  Confidence
thresholds are modelled as rationals (their exact decimal printing is irrelevant
to the properties proved here). -/
structure ProcessVideoOptions where
  model_file : String := "MDV5A"
  input_video_file : String := ""
  output_json_file : Option String := none
  output_video_file : Option String := none
  frame_folder : Option String := none
  frame_rendering_folder : Option String := none
  render_output_video : Bool := false
  keep_rendered_frames : Bool := false
  keep_extracted_frames : Bool := false
  force_extracted_frame_folder_deletion : Bool := false
  force_rendered_frame_folder_deletion : Bool := false
  reuse_results_if_available : Bool := false
  reuse_frames_if_available : Bool := false
  recursive : Bool := false
  verbose : Bool := false
  fourcc : Option String := none
  rendering_confidence_threshold : Option ℚ := none
  json_confidence_threshold : ℚ := 5 / 1000
  frame_sample : Option ℕ := none
  n_cores : ℕ := 1
  debug_max_frames : ℤ := -1
  class_mapping_filename : Option String := none

/-- Metadata value stored under the `video_frame_rate` key by
`write_results_to_file`: a scalar frame rate in the single-video path (line 157),
the whole per-video list in the folder path (line 309). -/
inductive FrameRateMeta where
  | single (fs : ℚ)
  | perVideo (fs : List ℚ)
deriving DecidableEq

/-- Observable effects of a run: directory creation, calls to the external
collaborators, file/tree deletion, the caught-exception warnings printed by the
cleanup blocks, and the two non-fatal folder-mode reports (lines 280-283). -/
inductive Effect where
  | makedirs (d : String)
  | extractFrames (video : String) (outDir : String)
  | extractFramesFolder (inputFolder : String) (outDir : String)
  | loadResults (path : String)
  | runDetector (images : List String)
  | writeResults (path : String) (meta : FrameRateMeta)
  | aggregateResults (framesJson : String) (videoJson : String)
  | renderFrames (resultPath : String) (outDir : String) (imagesDir : String)
  | framesToVideo (frames : List String) (fps : ℚ) (out : String)
  | removeFile (f : String)
  | rmtree (d : String)
  | cleanupWarning (folder : String)
  | reportNoVideos (folder : String)
  | reportNoFramesExtracted (folder : String)
deriving DecidableEq

/-- Python exceptions that the embedded control flow can propagate. -/
inductive PyError where
  | assertionError
  | valueError
  | indexError
  | nameError (n : String)
  | callError (fn : String)
deriving DecidableEq

/-- The value `process_video` returns (line 225): either the parsed pre-existing
artifact (line 144) or the detector output over the images it was invoked on
(line 146). -/
inductive DetResults where
  | loaded (path : String)
  | computed (images : List String)
deriving DecidableEq

/-- Abstraction of the ambient system and of the external collaborators'
observable outputs.  `removeFails`, `rmtreeFails` and `framesToVideoFails` say
whether `os.remove` / `shutil.rmtree` / `frames_to_video` raise on a given path,
letting the proofs quantify over failure patterns. -/
structure Env where
  tempRoot : String
  user : String
  uuidUser : String
  uuidFrames : String
  isfile : String → Bool
  isdir : String → Bool
  frameFilenames : List String
  fs : ℚ
  loadedResultImages : List String
  removeFails : String → Bool
  rmtreeFails : String → Bool
  framesToVideoFails : String → Bool
  folderVideos : List String
  folderFrameNames : List (List String)
  folderFs : List ℚ

/-- Line 105-106: `output_json_file` defaults to the input path plus `.json`. -/
def pvOutputJson (opts : ProcessVideoOptions) : String :=
  opts.output_json_file.getD (opts.input_video_file ++ ".json")

/-- Lines 108-109: when rendering, `output_video_file` defaults to the input
path plus `.detections.mp4`.  This is the value the rendering block reads. -/
def pvOutputVideoStr (opts : ProcessVideoOptions) : String :=
  match opts.output_video_file with
  | some s => s
  | none => opts.input_video_file ++ ".detections.mp4"

/-- Line 111: the shared `process_camera_trap_video` directory under the system
temporary directory. -/
def pvTempdir (env : Env) : String := joinPath env.tempRoot "process_camera_trap_video"

/-- Lines 115-116: per-user unique subdirectory. -/
def pvUserTempdir (env : Env) : String :=
  joinPath (pvTempdir env) (env.user ++ "_" ++ env.uuidUser)

/-- Lines 120-128: the extraction workspace and whether the function created it
(`frame_output_folder_created`). -/
def pvFrameFolder (env : Env) (opts : ProcessVideoOptions) : String × Bool :=
  match opts.frame_folder with
  | some f => (f, false)
  | none =>
      (joinPath (pvUserTempdir env)
        (basename opts.input_video_file ++ "_frames_" ++ env.uuidFrames), true)

/-- Lines 136-138: the frame list handed to the detector, truncated when a
positive debug cap is set. -/
def pvImageFileNames (env : Env) (opts : ProcessVideoOptions) : List String :=
  if opts.debug_max_frames > 0 then env.frameFilenames.take opts.debug_max_frames.toNat
  else env.frameFilenames

/-- Line 140-141: the reuse condition — the flag is set and the artifact exists. -/
def pvReuse (env : Env) (opts : ProcessVideoOptions) : Bool :=
  opts.reuse_results_if_available && env.isfile (pvOutputJson opts)

/-- Lines 140-157: load a pre-existing result artifact when the reuse condition
holds, otherwise run the detector and persist the results with the frame rate as
metadata. -/
def pvDetectTrace (env : Env) (opts : ProcessVideoOptions) : List Effect :=
  if pvReuse env opts then [Effect.loadResults (pvOutputJson opts)]
  else
    [Effect.runDetector (pvImageFileNames env opts),
     Effect.writeResults (pvOutputJson opts) (FrameRateMeta.single env.fs)]

/-- The `results` value of lines 140-157. -/
def pvResults (env : Env) (opts : ProcessVideoOptions) : DetResults :=
  if pvReuse env opts then DetResults.loaded (pvOutputJson opts)
  else DetResults.computed (pvImageFileNames env opts)

/-- The image list recorded in the artifact sitting at `output_json_file` after
lines 140-157: the pre-existing artifact's images on the reuse path, the
(possibly debug-truncated) detection list otherwise. -/
def pvArtifactImages (env : Env) (opts : ProcessVideoOptions) : List String :=
  if pvReuse env opts then env.loadedResultImages else pvImageFileNames env opts

/-- Lines 164-173: the rendering workspace and whether the function created it
(`frame_rendering_folder_created`); the default lives directly under the shared
tempdir. -/
def pvRenderingDir (env : Env) (opts : ProcessVideoOptions) : String × Bool :=
  match opts.frame_rendering_folder with
  | some f => (f, false)
  | none =>
      (joinPath (pvTempdir env) (basename opts.input_video_file ++ "_detections"), true)

/-- Lines 184-187 and 362-365: the stitching frame rate, the source rate
divided by the sampling stride when one is set. -/
def strideFs (vfs : ℚ) (sample : Option ℕ) : ℚ :=
  match sample with
  | none => vfs
  | some n => vfs / (n : ℚ)

/-- Lines 184-187: the single-video stitching frame rate. -/
def pvRenderingFs (env : Env) (opts : ProcessVideoOptions) : ℚ :=
  strideFs env.fs opts.frame_sample

/-- Modelled from the spec: `visualize_detector_output` (the FrameRenderer, not
under src/) renders exactly the images listed in the result artifact it is given;
without `preserve_path_structure` (single-video call, lines 177-181) the rendered
copies land flat in the output directory under their base names. -/
def pvDetectedFrameFiles (env : Env) (opts : ProcessVideoOptions) : List String :=
  (pvArtifactImages env opts).map (fun f => joinPath (pvRenderingDir env opts).1 (basename f))

/-- The `for ... os.remove` loops inside the cleanup `try` blocks
(lines 199-200 and 218-219): files are removed one at a time; the first failing
removal raises, the surrounding `except` prints a warning, and the loop stops. -/
def removeLoop (env : Env) (folder : String) : List String → List Effect
  | [] => []
  | f :: rest =>
      if env.removeFails f then [Effect.cleanupWarning folder]
      else Effect.removeFile f :: removeLoop env folder rest

/-- Lines 194-204: cleanup of the rendered frames.  The tree is removed when the
force flag is set, or when the function created the folder and the output video
path differs from it; otherwise the rendered files are removed one by one.  Any
exception is caught and reported as a warning. -/
def renderedCleanup (env : Env) (opts : ProcessVideoOptions) (renderDir : String)
    (created : Bool) (out : String) (files : List String) : List Effect :=
  if opts.keep_rendered_frames then []
  else if opts.force_rendered_frame_folder_deletion || (created && out != renderDir) then
    if env.rmtreeFails renderDir then [Effect.cleanupWarning renderDir]
    else [Effect.rmtree renderDir]
  else removeLoop env renderDir files

/-- Lines 211-223: cleanup of the extracted frames.  The condition at line 214
reads `options.ouput_json_file`, a misspelling of `output_json_file`; evaluating
that attribute raises AttributeError, which the surrounding `except` catches.  By
Python short-circuiting the attribute is only touched when the force flag is
clear and `frame_output_folder_created` is true, so: force set → tree removed;
force clear and folder created by the function → caught AttributeError, warning,
nothing removed; otherwise → per-file removal loop. -/
def extractedCleanup (env : Env) (opts : ProcessVideoOptions) (frameFolder : String)
    (created : Bool) (files : List String) : List Effect :=
  if opts.keep_extracted_frames then []
  else if opts.force_extracted_frame_folder_deletion then
    if env.rmtreeFails frameFolder then [Effect.cleanupWarning frameFolder]
    else [Effect.rmtree frameFolder]
  else if created then [Effect.cleanupWarning frameFolder]
  else removeLoop env frameFolder files

/-- Lines 111-131: directory creation and frame extraction preamble of
`process_video`. -/
def pvSetupTrace (env : Env) (opts : ProcessVideoOptions) : List Effect :=
  [Effect.makedirs (pvTempdir env), Effect.makedirs (pvUserTempdir env),
   Effect.makedirs (pvFrameFolder env opts).1,
   Effect.extractFrames opts.input_video_file (pvFrameFolder env opts).1]

/-- `process_video` (lines 100-225): the full single-video pipeline.  Returns
the effect trace and either the detection results (line 225) or the propagated
fatal exception; a `frames_to_video` failure (line 191) propagates before any
cleanup block runs. -/
def process_video (env : Env) (opts : ProcessVideoOptions) :
    List Effect × Except PyError DetResults :=
  let base := pvSetupTrace env opts ++ pvDetectTrace env opts
  if opts.render_output_video then
    let renderDir := (pvRenderingDir env opts).1
    let out := pvOutputVideoStr opts
    let preStitch := base ++
      [Effect.makedirs renderDir,
       Effect.renderFrames (pvOutputJson opts) renderDir (pvFrameFolder env opts).1]
    if env.framesToVideoFails out then
      (preStitch, Except.error (PyError.callError "frames_to_video"))
    else
      (preStitch ++
        [Effect.framesToVideo (pvDetectedFrameFiles env opts) (pvRenderingFs env opts) out] ++
        renderedCleanup env opts renderDir (pvRenderingDir env opts).2 out
          (pvDetectedFrameFiles env opts) ++
        extractedCleanup env opts (pvFrameFolder env opts).1 (pvFrameFolder env opts).2
          env.frameFilenames,
       Except.ok (pvResults env opts))
  else
    (base ++
      extractedCleanup env opts (pvFrameFolder env opts).1 (pvFrameFolder env opts).2
        env.frameFilenames,
     Except.ok (pvResults env opts))

/-- Line 245: the frame-level artifact path, `output_json_file` with every
occurrence of `.json` replaced by `.frames.json` (Python `str.replace`). -/
def pvfFramesJson (vj : String) : String := pyReplace vj ".json" ".frames.json"

/-- Lines 251-263: the folder-mode extraction workspace.  With no caller-supplied
folder it is `tempdir/<basename>_frames_<uuid>` (the per-user subdirectory is
created but not used, line 262 joins `tempdir`). -/
def pvfFrameFolder (env : Env) (opts : ProcessVideoOptions) : String :=
  match opts.frame_folder with
  | some f => f
  | none =>
      joinPath (pvTempdir env) (basename opts.input_video_file ++ "_frames_" ++ env.uuidFrames)

/-- Lines 246-267: directory creation and frame extraction preamble of
`process_video_folder`.  `tempdir` and the per-user directory are only created
when no caller-supplied frame folder is given. -/
def pvfSetupTrace (env : Env) (opts : ProcessVideoOptions) (vj : String) : List Effect :=
  Effect.makedirs (dirname vj) ::
  (match opts.frame_folder with
   | some _ => []
   | none => [Effect.makedirs (pvTempdir env), Effect.makedirs (pvUserTempdir env)]) ++
  [Effect.makedirs (pvfFrameFolder env opts),
   Effect.extractFramesFolder opts.input_video_file (pvfFrameFolder env opts)]

/-- The absolute paths of the videos `video_folder_to_frames` discovered:
`Env.folderVideos` holds their paths relative to the input folder. -/
def pvfVideoAbs (env : Env) (opts : ProcessVideoOptions) : List String :=
  env.folderVideos.map (fun v => joinPath opts.input_video_file v)

/-- Modelled from the spec: `video_folder_to_frames` (the folder FrameExtractor,
not under src/) roots every video's frames under the workspace with a layout
mirroring the input directory, so a frame named `n` of the video at relative
path `v` lands at `workspace/v/n`. -/
def pvfFrameAbs (env : Env) (opts : ProcessVideoOptions) : List (List String) :=
  (env.folderVideos.zip env.folderFrameNames).map
    (fun p => p.2.map (fun n => joinPath (pvfFrameFolder env opts) (joinPath p.1 n)))

/-- Line 276: the flattened list of every extracted frame. -/
def pvfAllFrames (env : Env) (opts : ProcessVideoOptions) : List String :=
  (pvfFrameAbs env opts).flatten

/-- Lines 286-287: the frame list handed to the detector, truncated when a
positive debug cap is set (`debug_max_frames` is an int, so the `is not None`
guard is always true). -/
def pvfImageFileNames (env : Env) (opts : ProcessVideoOptions) : List String :=
  if opts.debug_max_frames > 0 then (pvfAllFrames env opts).take opts.debug_max_frames.toNat
  else pvfAllFrames env opts

/-- Lines 292-293: the folder-mode reuse condition over the frames artifact. -/
def pvfReuse (env : Env) (opts : ProcessVideoOptions) (framesJson : String) : Bool :=
  opts.reuse_results_if_available && env.isfile framesJson

/-- Lines 292-309: folder-mode detection with the same reuse rule as the
single-video path; the persisted metadata carries the whole per-video frame-rate
list. -/
def pvfDetectTrace (env : Env) (opts : ProcessVideoOptions) (framesJson : String) :
    List Effect :=
  if pvfReuse env opts framesJson then [Effect.loadResults framesJson]
  else
    [Effect.runDetector (pvfImageFileNames env opts),
     Effect.writeResults framesJson (FrameRateMeta.perVideo env.folderFs)]

/-- Lines 322-331: the folder-mode rendering workspace.  The default branch
reads the local variable `tempdir`, which lines 251-263 only bind when no
caller-supplied frame folder was given; with `frame_folder` set and
`frame_rendering_folder` unset, line 330 raises NameError. -/
def pvfRenderingDir (env : Env) (opts : ProcessVideoOptions) :
    Except PyError (String × Bool) :=
  match opts.frame_rendering_folder with
  | some f => Except.ok (f, false)
  | none =>
      match opts.frame_folder with
      | some _ => Except.error (PyError.nameError "tempdir")
      | none =>
          Except.ok
            (joinPath (pvTempdir env) (basename opts.input_video_file ++ "_detections"), true)

/-- Lines 343-356: choose the output video folder.  An existing plain file is a
ValueError; an output equal to the input folder, or no output at all, selects
annotate-in-place.  Returns (output_folder_is_input_folder, output_video_folder)
plus the trace. -/
def pvfOutputFolderChoice (env : Env) (opts : ProcessVideoOptions) :
    Except PyError (Bool × String × List Effect) :=
  match opts.output_video_file with
  | some ov =>
      if env.isfile ov then Except.error PyError.valueError
      else if ov = opts.input_video_file then Except.ok (true, opts.input_video_file, [])
      else Except.ok (false, ov, [Effect.makedirs ov])
  | none => Except.ok (true, opts.input_video_file, [])

/-- Lines 373-374: the rendered frames attributed to one video, selected by a
`startswith` test against that video's rendered-frame folder.  This is the
attribution expression from the body of `process_single_video`; see that
definition's note — the statement containing it is never reached when the
function is called. -/
def videoFrameFiles (detectedFrameFiles : List String) (videoFolder : String) : List String :=
  detectedFrameFiles.filter (fun fn => pyStartswith fn videoFolder)

/-- `process_single_video` (lines 360-391) as the source defines it: a
module-level function — the enclosing `process_video_folder`'s body ends at
line 356, and the `def` at line 360 sits at column 0.  Its first statement
(line 361) indexes `Fs` by `video_filenames.index(video_file)`, and
`video_filenames` is bound nowhere at module scope (it is a local of
`process_video_folder`, line 268), so every call raises NameError before the
frame-rate selection (lines 362-365), the prefix match (lines 373-374) or any
stitching is reached. -/
def process_single_video (_video_file : String) (_options : ProcessVideoOptions)
    (_frame_rendering_output_dir : String) (_detected_frame_files : List String)
    (_output_folder_is_input_folder : Bool) (_output_video_folder : String)
    (_Fs : List ℚ) (_frame_sample : Option ℕ) : List Effect × Except PyError Unit :=
  ([], Except.error (PyError.nameError "video_filenames"))

/-- Lines 393-435 are module-level statements, not part of any function: the
body of `process_video_folder` ends at line 356, and lines 394, 405 and 422
start at column 0.  The first of them (line 394) evaluates `options.n_cores`
with `options` unbound at module scope, so executing the module raises NameError
at import time, before the pool fan-out, either folder cleanup block, or `main`
is reached. -/
def moduleLevelPoolBlock : List Effect × Except PyError Unit :=
  ([], Except.error (PyError.nameError "options"))

/-- `process_video_folder` (lines 230-356): the function body as the source
indents it, ending at line 356 — the per-video stitching fan-out (lines 393-400)
and both folder cleanup blocks (lines 405-434) sit at module level, outside the
function (see `moduleLevelPoolBlock`).  Validation failures are the asserts at
lines 237-243; the early return at lines 278-284 distinguishes the two
non-fatal no-frame conditions; with rendering enabled the function renders
detection boxes onto frames and chooses an output video folder, then returns
without stitching any output video and without any cleanup. -/
def process_video_folder (env : Env) (opts : ProcessVideoOptions) :
    List Effect × Except PyError Unit :=
  if env.isdir opts.input_video_file = false then ([], Except.error PyError.assertionError)
  else
    match opts.output_json_file with
    | none => ([], Except.error PyError.assertionError)
    | some vj =>
      if pyEndswith vj ".json" = false then ([], Except.error PyError.assertionError)
      else if (pvfAllFrames env opts).isEmpty then
        (pvfSetupTrace env opts vj ++
          [if env.folderVideos.isEmpty then Effect.reportNoVideos opts.input_video_file
           else Effect.reportNoFramesExtracted opts.input_video_file],
         Except.ok ())
      else if opts.render_output_video = false then
        (pvfSetupTrace env opts vj ++ pvfDetectTrace env opts (pvfFramesJson vj) ++
          [Effect.aggregateResults (pvfFramesJson vj) vj],
         Except.ok ())
      else
        match pvfRenderingDir env opts with
        | Except.error e =>
            (pvfSetupTrace env opts vj ++ pvfDetectTrace env opts (pvfFramesJson vj) ++
              [Effect.aggregateResults (pvfFramesJson vj) vj],
             Except.error e)
        | Except.ok (renderDir, _) =>
          match pvfOutputFolderChoice env opts with
          | Except.error e =>
              (pvfSetupTrace env opts vj ++ pvfDetectTrace env opts (pvfFramesJson vj) ++
                [Effect.aggregateResults (pvfFramesJson vj) vj] ++
                [Effect.makedirs renderDir,
                 Effect.renderFrames (pvfFramesJson vj) renderDir (pvfFrameFolder env opts)],
               Except.error e)
          | Except.ok (_, _, chooseT) =>
              (pvfSetupTrace env opts vj ++ pvfDetectTrace env opts (pvfFramesJson vj) ++
                [Effect.aggregateResults (pvfFramesJson vj) vj] ++
                [Effect.makedirs renderDir,
                 Effect.renderFrames (pvfFramesJson vj) renderDir (pvfFrameFolder env opts)] ++
                chooseT,
               Except.ok ())

/-- `options_to_command` (lines 440-481): serialize a `ProcessVideoOptions` back
to a command line.  Numeric arguments are printed through `toString`; the exact
digit strings are irrelevant to the properties proved about this function. -/
def options_to_command (opts : ProcessVideoOptions) : String :=
  let cmd := "python process_video.py" ++ " \"" ++ opts.model_file ++ "\"" ++
    " \"" ++ opts.input_video_file ++ "\""
  let cmd := if opts.recursive then cmd ++ " --recursive" else cmd
  let cmd := match opts.frame_folder with
    | some f => cmd ++ " --frame_folder" ++ " \"" ++ f ++ "\""
    | none => cmd
  let cmd := match opts.frame_rendering_folder with
    | some f => cmd ++ " --frame_rendering_folder" ++ " \"" ++ f ++ "\""
    | none => cmd
  let cmd := match opts.output_json_file with
    | some f => cmd ++ " --output_json_file" ++ " \"" ++ f ++ "\""
    | none => cmd
  let cmd := match opts.output_video_file with
    | some f => cmd ++ " --output_video_file" ++ " \"" ++ f ++ "\""
    | none => cmd
  let cmd := if opts.keep_extracted_frames then cmd ++ " --keep_extracted_frames" else cmd
  let cmd := if opts.reuse_results_if_available then cmd ++ " --reuse_results_if_available"
    else cmd
  let cmd := if opts.reuse_frames_if_available then cmd ++ " --reuse_frames_if_available"
    else cmd
  let cmd := if opts.render_output_video then cmd ++ " --render_output_video" else cmd
  let cmd := if opts.keep_rendered_frames then cmd ++ " --keep_rendered_frames" else cmd
  let cmd := match opts.rendering_confidence_threshold with
    | some t => cmd ++ " --rendering_confidence_threshold " ++ toString t
    | none => cmd
  let cmd := cmd ++ " --json_confidence_threshold " ++ toString opts.json_confidence_threshold
  let cmd := cmd ++ " --n_cores " ++ toString opts.n_cores
  let cmd := match opts.frame_sample with
    | some n => cmd ++ " --frame_sample " ++ toString n
    | none => cmd
  let cmd := cmd ++ " --debug_max_frames " ++ toString opts.debug_max_frames
  let cmd := match opts.class_mapping_filename with
    | some f => cmd ++ " --class_mapping_filename " ++ f
    | none => cmd
  match opts.fourcc with
  | some f => cmd ++ " --fourcc " ++ f
  | none => cmd

/-- A concrete, fully benign environment used to instantiate the theorems on
specific runs; individual instantiations override the fields they need. -/
def baseEnv : Env := {
  tempRoot := "/tmp", user := "u", uuidUser := "U", uuidFrames := "V",
  isfile := fun _ => false, isdir := fun _ => true,
  frameFilenames := ["FF/f1.jpg"], fs := 30, loadedResultImages := [],
  removeFails := fun _ => false, rmtreeFails := fun _ => false,
  framesToVideoFails := fun _ => false,
  folderVideos := [], folderFrameNames := [], folderFs := [] }

lemma mem_removeLoop {env : Env} {folder : String} :
    ∀ {files : List String} {e : Effect}, e ∈ removeLoop env folder files →
      (∃ f, e = Effect.removeFile f) ∨ e = Effect.cleanupWarning folder := by
  intro files
  induction files with
  | nil => intro e h; simp [removeLoop] at h
  | cons f rest ih =>
      intro e h
      by_cases hf : env.removeFails f = true
      · simp [removeLoop, hf] at h
        exact Or.inr h
      · rw [Bool.not_eq_true] at hf
        simp only [removeLoop, hf, Bool.false_eq_true, if_false, List.mem_cons] at h
        rcases h with h | h
        · exact Or.inl ⟨f, h⟩
        · exact ih h

lemma rmtree_not_mem_removeLoop {env : Env} {folder : String} {files : List String}
    {d : String} : Effect.rmtree d ∉ removeLoop env folder files := by
  intro h
  rcases mem_removeLoop h with ⟨f, hf⟩ | hf
  · exact Effect.noConfusion hf
  · exact Effect.noConfusion hf

lemma stitch_not_mem_removeLoop {env : Env} {folder : String} {files fr : List String}
    {fps : ℚ} {out : String} : Effect.framesToVideo fr fps out ∉ removeLoop env folder files := by
  intro h
  rcases mem_removeLoop h with ⟨f, hf⟩ | hf
  · exact Effect.noConfusion hf
  · exact Effect.noConfusion hf

lemma detector_not_mem_removeLoop {env : Env} {folder : String} {files imgs : List String} :
    Effect.runDetector imgs ∉ removeLoop env folder files := by
  intro h
  rcases mem_removeLoop h with ⟨f, hf⟩ | hf
  · exact Effect.noConfusion hf
  · exact Effect.noConfusion hf

lemma rmtree_mem_extractedCleanup {env : Env} {opts : ProcessVideoOptions}
    {folder : String} {created : Bool} {files : List String} {d : String}
    (hfail : env.rmtreeFails folder = false) :
    (Effect.rmtree d ∈ extractedCleanup env opts folder created files) ↔
      (d = folder ∧ opts.keep_extracted_frames = false ∧
        opts.force_extracted_frame_folder_deletion = true) := by
  unfold extractedCleanup
  by_cases hk : opts.keep_extracted_frames = true
  · simp [hk]
  · rw [Bool.not_eq_true] at hk
    by_cases hf : opts.force_extracted_frame_folder_deletion = true
    · simp [hk, hf, hfail]
    · rw [Bool.not_eq_true] at hf
      by_cases hc : created = true
      · simp [hk, hf, hc]
      · rw [Bool.not_eq_true] at hc
        simp [hk, hf, hc, rmtree_not_mem_removeLoop]

lemma rmtree_mem_renderedCleanup {env : Env} {opts : ProcessVideoOptions}
    {renderDir : String} {created : Bool} {out : String} {files : List String} {d : String}
    (hfail : env.rmtreeFails renderDir = false) :
    (Effect.rmtree d ∈ renderedCleanup env opts renderDir created out files) ↔
      (d = renderDir ∧ opts.keep_rendered_frames = false ∧
        (opts.force_rendered_frame_folder_deletion ||
          (created && out != renderDir)) = true) := by
  unfold renderedCleanup
  by_cases hk : opts.keep_rendered_frames = true
  · simp [hk]
  · rw [Bool.not_eq_true] at hk
    by_cases hc : (opts.force_rendered_frame_folder_deletion ||
        (created && out != renderDir)) = true
    · simp [hk, hc, hfail]
    · rw [Bool.not_eq_true] at hc
      simp [hk, hc, rmtree_not_mem_removeLoop]

lemma rmtree_not_mem_pvSetupTrace {env : Env} {opts : ProcessVideoOptions} {d : String} :
    Effect.rmtree d ∉ pvSetupTrace env opts := by
  simp [pvSetupTrace]

lemma rmtree_not_mem_pvDetectTrace {env : Env} {opts : ProcessVideoOptions} {d : String} :
    Effect.rmtree d ∉ pvDetectTrace env opts := by
  unfold pvDetectTrace
  split <;> simp

lemma process_video_trace_render {env : Env} {opts : ProcessVideoOptions}
    (hr : opts.render_output_video = true)
    (hs : env.framesToVideoFails (pvOutputVideoStr opts) = false) :
    (process_video env opts).1 =
      pvSetupTrace env opts ++ pvDetectTrace env opts ++
      [Effect.makedirs (pvRenderingDir env opts).1,
       Effect.renderFrames (pvOutputJson opts) (pvRenderingDir env opts).1
         (pvFrameFolder env opts).1,
       Effect.framesToVideo (pvDetectedFrameFiles env opts) (pvRenderingFs env opts)
         (pvOutputVideoStr opts)] ++
      renderedCleanup env opts (pvRenderingDir env opts).1 (pvRenderingDir env opts).2
        (pvOutputVideoStr opts) (pvDetectedFrameFiles env opts) ++
      extractedCleanup env opts (pvFrameFolder env opts).1 (pvFrameFolder env opts).2
        env.frameFilenames := by
  simp [process_video, hr, hs]

lemma process_video_trace_norender {env : Env} {opts : ProcessVideoOptions}
    (hr : opts.render_output_video = false) :
    (process_video env opts).1 =
      pvSetupTrace env opts ++ pvDetectTrace env opts ++
      extractedCleanup env opts (pvFrameFolder env opts).1 (pvFrameFolder env opts).2
        env.frameFilenames := by
  simp [process_video, hr]

lemma mem_extractedCleanup {env : Env} {opts : ProcessVideoOptions} {folder : String}
    {created : Bool} {files : List String} {e : Effect}
    (h : e ∈ extractedCleanup env opts folder created files) :
    e = Effect.rmtree folder ∨ e = Effect.cleanupWarning folder ∨
      ∃ f, e = Effect.removeFile f := by
  unfold extractedCleanup at h
  split at h
  · simp at h
  · split at h
    · split at h
      · simp at h; exact Or.inr (Or.inl h)
      · simp at h; exact Or.inl h
    · split at h
      · simp at h; exact Or.inr (Or.inl h)
      · rcases mem_removeLoop h with ⟨f, hf⟩ | hf
        · exact Or.inr (Or.inr ⟨f, hf⟩)
        · exact Or.inr (Or.inl hf)

lemma mem_renderedCleanup {env : Env} {opts : ProcessVideoOptions} {renderDir : String}
    {created : Bool} {out : String} {files : List String} {e : Effect}
    (h : e ∈ renderedCleanup env opts renderDir created out files) :
    e = Effect.rmtree renderDir ∨ e = Effect.cleanupWarning renderDir ∨
      ∃ f, e = Effect.removeFile f := by
  unfold renderedCleanup at h
  split at h
  · simp at h
  · split at h
    · split at h
      · simp at h; exact Or.inr (Or.inl h)
      · simp at h; exact Or.inl h
    · rcases mem_removeLoop h with ⟨f, hf⟩ | hf
      · exact Or.inr (Or.inr ⟨f, hf⟩)
      · exact Or.inr (Or.inl hf)

lemma pvReuse_eq_true {env : Env} {opts : ProcessVideoOptions} :
    pvReuse env opts = true ↔
      (opts.reuse_results_if_available = true ∧ env.isfile (pvOutputJson opts) = true) := by
  simp [pvReuse]

lemma pvfReuse_eq_true {env : Env} {opts : ProcessVideoOptions} {fj : String} :
    pvfReuse env opts fj = true ↔
      (opts.reuse_results_if_available = true ∧ env.isfile fj = true) := by
  simp [pvfReuse]

lemma detector_mem_pvDetectTrace {env : Env} {opts : ProcessVideoOptions}
    {imgs : List String} :
    Effect.runDetector imgs ∈ pvDetectTrace env opts ↔
      (pvReuse env opts = false ∧ imgs = pvImageFileNames env opts) := by
  unfold pvDetectTrace
  split
  · rename_i h
    simp [h]
  · rename_i h
    rw [Bool.not_eq_true] at h
    simp [h]

lemma fdetector_mem_pvfDetectTrace {env : Env} {opts : ProcessVideoOptions}
    {fj : String} {imgs : List String} :
    Effect.runDetector imgs ∈ pvfDetectTrace env opts fj ↔
      (pvfReuse env opts fj = false ∧ imgs = pvfImageFileNames env opts) := by
  unfold pvfDetectTrace
  split
  · rename_i h
    simp [h]
  · rename_i h
    rw [Bool.not_eq_true] at h
    simp [h]

lemma detector_not_mem_extractedCleanup {env : Env} {opts : ProcessVideoOptions}
    {folder : String} {created : Bool} {files imgs : List String} :
    Effect.runDetector imgs ∉ extractedCleanup env opts folder created files := by
  intro h
  rcases mem_extractedCleanup h with h | h | ⟨f, h⟩ <;> exact Effect.noConfusion h

lemma detector_not_mem_renderedCleanup {env : Env} {opts : ProcessVideoOptions}
    {renderDir : String} {created : Bool} {out : String} {files imgs : List String} :
    Effect.runDetector imgs ∉ renderedCleanup env opts renderDir created out files := by
  intro h
  rcases mem_renderedCleanup h with h | h | ⟨f, h⟩ <;> exact Effect.noConfusion h

lemma detector_not_mem_pvfSetupTrace {env : Env} {opts : ProcessVideoOptions}
    {vj : String} {imgs : List String} :
    Effect.runDetector imgs ∉ pvfSetupTrace env opts vj := by
  unfold pvfSetupTrace
  cases opts.frame_folder <;> simp

lemma process_video_trace_stitchfail {env : Env} {opts : ProcessVideoOptions}
    (hr : opts.render_output_video = true)
    (hs : env.framesToVideoFails (pvOutputVideoStr opts) = true) :
    (process_video env opts).1 =
      pvSetupTrace env opts ++ pvDetectTrace env opts ++
      [Effect.makedirs (pvRenderingDir env opts).1,
       Effect.renderFrames (pvOutputJson opts) (pvRenderingDir env opts).1
         (pvFrameFolder env opts).1] := by
  simp [process_video, hr, hs]

lemma detector_mem_process_video {env : Env} {opts : ProcessVideoOptions}
    {imgs : List String} :
    Effect.runDetector imgs ∈ (process_video env opts).1 ↔
      (pvReuse env opts = false ∧ imgs = pvImageFileNames env opts) := by
  by_cases hr : opts.render_output_video = true
  · by_cases hs : env.framesToVideoFails (pvOutputVideoStr opts) = true
    · rw [process_video_trace_stitchfail hr hs]
      simp [List.mem_append, detector_mem_pvDetectTrace, pvSetupTrace]
    · rw [Bool.not_eq_true] at hs
      rw [process_video_trace_render hr hs]
      simp [List.mem_append, detector_mem_pvDetectTrace, pvSetupTrace,
        detector_not_mem_extractedCleanup, detector_not_mem_renderedCleanup]
  · rw [Bool.not_eq_true] at hr
    rw [process_video_trace_norender hr]
    simp [List.mem_append, detector_mem_pvDetectTrace, pvSetupTrace,
      detector_not_mem_extractedCleanup]

lemma chooseT_shape {env : Env} {opts : ProcessVideoOptions} {i : Bool} {o : String}
    {t : List Effect} (heq : pvfOutputFolderChoice env opts = Except.ok (i, o, t)) :
    t = [] ∨ ∃ d, t = [Effect.makedirs d] := by
  unfold pvfOutputFolderChoice at heq
  split at heq
  · split at heq
    · simp at heq
    · split at heq
      · simp only [Except.ok.injEq, Prod.mk.injEq] at heq
        exact Or.inl heq.2.2.symm
      · simp only [Except.ok.injEq, Prod.mk.injEq] at heq
        exact Or.inr ⟨_, heq.2.2.symm⟩
  · simp only [Except.ok.injEq, Prod.mk.injEq] at heq
    exact Or.inl heq.2.2.symm

lemma fdetector_mem_process_video_folder {env : Env} {opts : ProcessVideoOptions}
    {vj : String} {imgs : List String}
    (hd : env.isdir opts.input_video_file = true)
    (hj : opts.output_json_file = some vj)
    (he : pyEndswith vj ".json" = true)
    (hfr : (pvfAllFrames env opts).isEmpty = false) :
    Effect.runDetector imgs ∈ (process_video_folder env opts).1 ↔
      (pvfReuse env opts (pvfFramesJson vj) = false ∧
        imgs = pvfImageFileNames env opts) := by
  unfold process_video_folder
  rw [hd, hj]
  simp only [he, hfr, Bool.true_eq_false, Bool.false_eq_true, if_false]
  split
  · simp [List.mem_append, fdetector_mem_pvfDetectTrace, detector_not_mem_pvfSetupTrace]
  · split
    · simp [List.mem_append, fdetector_mem_pvfDetectTrace, detector_not_mem_pvfSetupTrace]
    · split
      · simp [List.mem_append, fdetector_mem_pvfDetectTrace, detector_not_mem_pvfSetupTrace]
      · rename_i hoc
        rcases chooseT_shape hoc with ht | ⟨d, ht⟩ <;> subst ht <;>
          simp [List.mem_append, fdetector_mem_pvfDetectTrace,
            detector_not_mem_pvfSetupTrace]

lemma fwrite_mem_process_video_folder {env : Env} {opts : ProcessVideoOptions}
    {vj : String}
    (hd : env.isdir opts.input_video_file = true)
    (hj : opts.output_json_file = some vj)
    (he : pyEndswith vj ".json" = true)
    (hfr : (pvfAllFrames env opts).isEmpty = false)
    (hreuse : pvfReuse env opts (pvfFramesJson vj) = false) :
    Effect.writeResults (pvfFramesJson vj) (FrameRateMeta.perVideo env.folderFs) ∈
      (process_video_folder env opts).1 := by
  have hw : Effect.writeResults (pvfFramesJson vj) (FrameRateMeta.perVideo env.folderFs) ∈
      pvfDetectTrace env opts (pvfFramesJson vj) := by
    unfold pvfDetectTrace
    simp [hreuse]
  unfold process_video_folder
  rw [hd, hj]
  simp only [he, hfr, Bool.true_eq_false, Bool.false_eq_true, if_false]
  split
  · simp [List.mem_append, hw]
  · split
    · simp [List.mem_append, hw]
    · split
      · simp [List.mem_append, hw]
      · simp [List.mem_append, hw]

/-- Options for a single-video run handing the function a caller-supplied
rendering folder together with the force-deletion flag. -/
def c1CexOpts : ProcessVideoOptions := {
  input_video_file := "vid.mp4", render_output_video := true,
  frame_rendering_folder := some "keepdir",
  force_rendered_frame_folder_deletion := true,
  keep_extracted_frames := true, frame_folder := some "FF",
  output_video_file := some "out.mp4" }

/-- C1 fails as stated: in a `process_video` run with the keep flags unset for
the rendering workspace, a caller-supplied rendering folder (so not
orchestrator-created) is nevertheless recursively deleted because the force flag
is set — the force flag is or-ed outside the orchestrator-created conjunct. -/
theorem c1_claim_cex :
    c1CexOpts.frame_rendering_folder = some "keepdir" ∧
    (pvRenderingDir baseEnv c1CexOpts).2 = false ∧
    c1CexOpts.keep_rendered_frames = false ∧
    c1CexOpts.force_rendered_frame_folder_deletion = true ∧
    Effect.rmtree "keepdir" ∈ (process_video baseEnv c1CexOpts).1 := by
  refine ⟨rfl, rfl, rfl, rfl, ?_⟩
  decide

/-- C1 (amended): in every `process_video` run with the keep flags unset and no
cleanup-time deletion failure, the extraction workspace is recursively deleted
exactly when its force flag is set (with force clear, even an
orchestrator-created workspace is not removed: line 214 touches the misspelled
attribute `ouput_json_file` and the resulting AttributeError is caught), and the
rendering workspace is recursively deleted exactly when its force flag is set or
it was orchestrator-created and the output video path differs from it — so force
deletion applies to caller-supplied folders as well. -/
theorem c1_amended (env : Env) (opts : ProcessVideoOptions)
    (hre : opts.render_output_video = true)
    (hke : opts.keep_extracted_frames = false)
    (hkr : opts.keep_rendered_frames = false)
    (hst : env.framesToVideoFails (pvOutputVideoStr opts) = false)
    (hfa : ∀ d, env.rmtreeFails d = false)
    (hne : (pvFrameFolder env opts).1 ≠ (pvRenderingDir env opts).1) :
    (Effect.rmtree (pvFrameFolder env opts).1 ∈ (process_video env opts).1 ↔
      opts.force_extracted_frame_folder_deletion = true) ∧
    (Effect.rmtree (pvRenderingDir env opts).1 ∈ (process_video env opts).1 ↔
      (opts.force_rendered_frame_folder_deletion = true ∨
        ((pvRenderingDir env opts).2 = true ∧
          pvOutputVideoStr opts ≠ (pvRenderingDir env opts).1))) := by
  rw [process_video_trace_render hre hst, And.comm]
  constructor
  · simp [List.mem_append, rmtree_not_mem_pvSetupTrace, rmtree_not_mem_pvDetectTrace,
      rmtree_mem_extractedCleanup (hfa _), rmtree_mem_renderedCleanup (hfa _),
      hke, hkr, Ne.symm hne, Bool.or_eq_true, Bool.and_eq_true, bne_iff_ne]
  · simp [List.mem_append, rmtree_not_mem_pvSetupTrace, rmtree_not_mem_pvDetectTrace,
      rmtree_mem_extractedCleanup (hfa _), rmtree_mem_renderedCleanup (hfa _),
      hke, hkr, hne, Bool.or_eq_true, Bool.and_eq_true, bne_iff_ne]

/-- Options for a single-video run with rendering on, both keep flags unset, the
extracted-frames force flag set and a caller-supplied extraction folder. -/
def c1WitOpts : ProcessVideoOptions := {
  input_video_file := "vid.mp4", render_output_video := true,
  keep_extracted_frames := false, keep_rendered_frames := false,
  force_extracted_frame_folder_deletion := true,
  frame_folder := some "FF", output_video_file := some "out.mp4" }

/-- Concrete instance of `c1_amended`. -/
theorem c1_amended_witness :
    c1WitOpts.render_output_video = true ∧
    (pvFrameFolder baseEnv c1WitOpts).1 ≠ (pvRenderingDir baseEnv c1WitOpts).1 ∧
    ((Effect.rmtree (pvFrameFolder baseEnv c1WitOpts).1 ∈
        (process_video baseEnv c1WitOpts).1 ↔
      c1WitOpts.force_extracted_frame_folder_deletion = true) ∧
     (Effect.rmtree (pvRenderingDir baseEnv c1WitOpts).1 ∈
        (process_video baseEnv c1WitOpts).1 ↔
      (c1WitOpts.force_rendered_frame_folder_deletion = true ∨
        ((pvRenderingDir baseEnv c1WitOpts).2 = true ∧
          pvOutputVideoStr c1WitOpts ≠ (pvRenderingDir baseEnv c1WitOpts).1)))) :=
  ⟨rfl, by decide,
   c1_amended baseEnv c1WitOpts rfl rfl rfl rfl (fun _ => rfl) (by decide)⟩

lemma write_mem_process_video {env : Env} {opts : ProcessVideoOptions}
    (hreuse : pvReuse env opts = false) :
    Effect.writeResults (pvOutputJson opts) (FrameRateMeta.single env.fs) ∈
      (process_video env opts).1 := by
  have hw : Effect.writeResults (pvOutputJson opts) (FrameRateMeta.single env.fs) ∈
      pvDetectTrace env opts := by
    unfold pvDetectTrace
    simp [hreuse]
  by_cases hr : opts.render_output_video = true
  · by_cases hs : env.framesToVideoFails (pvOutputVideoStr opts) = true
    · rw [process_video_trace_stitchfail hr hs]
      simp [List.mem_append, hw]
    · rw [Bool.not_eq_true] at hs
      rw [process_video_trace_render hr hs]
      simp [List.mem_append, hw]
  · rw [Bool.not_eq_true] at hr
    rw [process_video_trace_norender hr]
    simp [List.mem_append, hw]

/-- C2: in both `process_video` and `process_video_folder` the detection engine
is skipped (never invoked) exactly when `reuse_results_if_available` is set AND
the result artifact already exists — mere existence of the artifact never
triggers reuse — and on every run in which detection does run, the results are
persisted with the video frame rate attached as metadata (the scalar rate in the
single-video path, the per-video rate list in the folder path). -/
theorem c2_detection_reuse (env : Env) (opts : ProcessVideoOptions) (vj : String)
    (hd : env.isdir opts.input_video_file = true)
    (hj : opts.output_json_file = some vj)
    (he : pyEndswith vj ".json" = true)
    (hfr : (pvfAllFrames env opts).isEmpty = false) :
    ((∀ imgs, Effect.runDetector imgs ∉ (process_video env opts).1) ↔
      (opts.reuse_results_if_available = true ∧ env.isfile (pvOutputJson opts) = true)) ∧
    (pvReuse env opts = false →
      Effect.writeResults (pvOutputJson opts) (FrameRateMeta.single env.fs) ∈
        (process_video env opts).1) ∧
    ((∀ imgs, Effect.runDetector imgs ∉ (process_video_folder env opts).1) ↔
      (opts.reuse_results_if_available = true ∧ env.isfile (pvfFramesJson vj) = true)) ∧
    (pvfReuse env opts (pvfFramesJson vj) = false →
      Effect.writeResults (pvfFramesJson vj) (FrameRateMeta.perVideo env.folderFs) ∈
        (process_video_folder env opts).1) := by
  refine ⟨⟨?_, ?_⟩, fun hre => write_mem_process_video hre, ⟨?_, ?_⟩,
    fun hre => fwrite_mem_process_video_folder hd hj he hfr hre⟩
  · intro hall
    rw [← pvReuse_eq_true]
    by_contra hcon
    have hfalse : pvReuse env opts = false := by
      cases hpv : pvReuse env opts
      · rfl
      · exact absurd hpv hcon
    exact hall (pvImageFileNames env opts) (detector_mem_process_video.mpr ⟨hfalse, rfl⟩)
  · intro hre imgs hmem
    rw [detector_mem_process_video] at hmem
    rw [← pvReuse_eq_true] at hre
    rw [hmem.1] at hre
    exact Bool.noConfusion hre
  · intro hall
    rw [← pvfReuse_eq_true]
    by_contra hcon
    have hfalse : pvfReuse env opts (pvfFramesJson vj) = false := by
      cases hpv : pvfReuse env opts (pvfFramesJson vj)
      · rfl
      · exact absurd hpv hcon
    exact hall (pvfImageFileNames env opts)
      ((fdetector_mem_process_video_folder hd hj he hfr).mpr ⟨hfalse, rfl⟩)
  · intro hre imgs hmem
    rw [fdetector_mem_process_video_folder hd hj he hfr] at hmem
    rw [← pvfReuse_eq_true] at hre
    rw [hmem.1] at hre
    exact Bool.noConfusion hre

/-- An environment whose input folder holds one video with one frame. -/
def c2Env : Env :=
  { baseEnv with
    folderVideos := ["a.mp4"], folderFrameNames := [["f1.jpg"]],
    folderFs := [30] }

/-- Folder-shaped options for the caching theorems. -/
def c2Opts : ProcessVideoOptions :=
  { input_video_file := "in", output_json_file := some "o/r.json" }

/-- Concrete instance of `c2_detection_reuse`. -/
theorem c2_detection_reuse_witness :
    c2Env.isdir c2Opts.input_video_file = true ∧
    (pvfAllFrames c2Env c2Opts).isEmpty = false ∧
    (((∀ imgs, Effect.runDetector imgs ∉ (process_video c2Env c2Opts).1) ↔
        (c2Opts.reuse_results_if_available = true ∧
          c2Env.isfile (pvOutputJson c2Opts) = true)) ∧
     (pvReuse c2Env c2Opts = false →
        Effect.writeResults (pvOutputJson c2Opts) (FrameRateMeta.single c2Env.fs) ∈
          (process_video c2Env c2Opts).1) ∧
     ((∀ imgs, Effect.runDetector imgs ∉ (process_video_folder c2Env c2Opts).1) ↔
        (c2Opts.reuse_results_if_available = true ∧
          c2Env.isfile (pvfFramesJson "o/r.json") = true)) ∧
     (pvfReuse c2Env c2Opts (pvfFramesJson "o/r.json") = false →
        Effect.writeResults (pvfFramesJson "o/r.json")
          (FrameRateMeta.perVideo c2Env.folderFs) ∈
          (process_video_folder c2Env c2Opts).1)) :=
  ⟨rfl, by decide,
   c2_detection_reuse c2Env c2Opts "o/r.json" rfl rfl (by decide) (by decide)⟩

/-- C10: `options_to_command` is a deterministic, lossy serialization: the
generated command line is invariant under the two force-deletion flags and the
verbose flag — none of them is ever emitted — so parsing the produced command
back yields a configuration in which those settings are reset to defaults. -/
theorem c10_lossy_serialization (opts : ProcessVideoOptions) (b1 b2 b3 : Bool) :
    options_to_command
      { opts with
        force_extracted_frame_folder_deletion := b1,
        force_rendered_frame_folder_deletion := b2, verbose := b3 } =
      options_to_command opts := rfl

/-- An environment extracting two frames from a single video. -/
def c5Env : Env := { baseEnv with frameFilenames := ["f1", "f2"] }

/-- Options whose output artifact path coincides with the orchestrator-created
extraction workspace, with all keep/force flags clear. -/
def c5Opts : ProcessVideoOptions :=
  { input_video_file := "vid.mp4",
    output_json_file := some "/tmp/process_camera_trap_video/u_U/vid.mp4_frames_V" }

/-- C5 evaluated at the failing input: with the force flag clear and the
recursive-removal condition inapplicable (output artifact path equal to the
orchestrator-created workspace), the claim requires removing exactly the two
frame files while keeping the folder; the run instead evaluates the misspelled
attribute `ouput_json_file` at line 214, the resulting AttributeError is caught
as a cleanup warning, and nothing at all is removed. -/
theorem c5_code_bug_eval :
    (process_video c5Env c5Opts).1 =
      [Effect.makedirs "/tmp/process_camera_trap_video",
       Effect.makedirs "/tmp/process_camera_trap_video/u_U",
       Effect.makedirs "/tmp/process_camera_trap_video/u_U/vid.mp4_frames_V",
       Effect.extractFrames "vid.mp4" "/tmp/process_camera_trap_video/u_U/vid.mp4_frames_V",
       Effect.runDetector ["f1", "f2"],
       Effect.writeResults "/tmp/process_camera_trap_video/u_U/vid.mp4_frames_V"
         (FrameRateMeta.single 30),
       Effect.cleanupWarning "/tmp/process_camera_trap_video/u_U/vid.mp4_frames_V"] ∧
    (process_video c5Env c5Opts).2 = Except.ok (DetResults.computed ["f1", "f2"]) ∧
    c5Opts.output_json_file = some "/tmp/process_camera_trap_video/u_U/vid.mp4_frames_V" ∧
    pvFrameFolder c5Env c5Opts =
      ("/tmp/process_camera_trap_video/u_U/vid.mp4_frames_V", true) := by
  decide

/-- An environment extracting three frames from a single video. -/
def c7Env : Env := { baseEnv with frameFilenames := ["F/f1.jpg", "F/f2.jpg", "F/f3.jpg"] }

/-- Options with rendering enabled and a debug frame cap of 1. -/
def c7Opts : ProcessVideoOptions :=
  { input_video_file := "vid.mp4", frame_folder := some "F",
    frame_rendering_folder := some "R", render_output_video := true,
    output_video_file := some "out.mp4", output_json_file := some "res.json",
    keep_extracted_frames := true, keep_rendered_frames := true,
    debug_max_frames := 1 }

/-- C7 evaluated at the failing input: three frames are extracted, the debug cap
is 1, rendering is enabled — and the single stitching effect in the trace covers
only the one truncated frame, because the renderer reads the persisted artifact,
which holds only the truncated frame list. -/
theorem c7_code_bug_eval :
    c7Env.frameFilenames.length = 3 ∧ c7Opts.debug_max_frames = 1 ∧
    (process_video c7Env c7Opts).1 =
      [Effect.makedirs "/tmp/process_camera_trap_video",
       Effect.makedirs "/tmp/process_camera_trap_video/u_U",
       Effect.makedirs "F",
       Effect.extractFrames "vid.mp4" "F",
       Effect.runDetector ["F/f1.jpg"],
       Effect.writeResults "res.json" (FrameRateMeta.single 30),
       Effect.makedirs "R",
       Effect.renderFrames "res.json" "R" "F",
       Effect.framesToVideo ["R/f1.jpg"] 30 "out.mp4"] := by
  decide

/-- C4 evaluated at the failing input: the attribution expression of lines
373-374 (`videoFrameFiles`) selects the rendered frame
`R/clip.mp4.old.mp4/f1.jpg` for BOTH of the distinct videos `clip.mp4` and
`clip.mp4.old.mp4`: the first video's rendered-frame folder path is a character
prefix of the second's, and the `startswith` test appends no separator.  In the
program as shipped the expression is moreover never reached: every call of
`process_single_video` raises NameError first. -/
theorem c4_code_bug_eval :
    "clip.mp4" ≠ "clip.mp4.old.mp4" ∧
    "R/clip.mp4.old.mp4/f1.jpg" ∈
      videoFrameFiles ["R/clip.mp4/f1.jpg", "R/clip.mp4.old.mp4/f1.jpg"]
        (joinPath "R" "clip.mp4") ∧
    "R/clip.mp4.old.mp4/f1.jpg" ∈
      videoFrameFiles ["R/clip.mp4/f1.jpg", "R/clip.mp4.old.mp4/f1.jpg"]
        (joinPath "R" "clip.mp4.old.mp4") ∧
    (process_single_video "in/clip.mp4" ({ input_video_file := "in" } : ProcessVideoOptions)
      "R" ["R/clip.mp4/f1.jpg", "R/clip.mp4.old.mp4/f1.jpg"] false "out" [30, 30] none).2 =
      Except.error (PyError.nameError "video_filenames") := by
  decide

lemma stitch_not_mem_pvSetupTrace {env : Env} {opts : ProcessVideoOptions}
    {fr : List String} {fps : ℚ} {out : String} :
    Effect.framesToVideo fr fps out ∉ pvSetupTrace env opts := by
  simp [pvSetupTrace]

lemma stitch_not_mem_pvDetectTrace {env : Env} {opts : ProcessVideoOptions}
    {fr : List String} {fps : ℚ} {out : String} :
    Effect.framesToVideo fr fps out ∉ pvDetectTrace env opts := by
  unfold pvDetectTrace
  split <;> simp

lemma stitch_not_mem_pvfSetupTrace {env : Env} {opts : ProcessVideoOptions}
    {vj : String} {fr : List String} {fps : ℚ} {out : String} :
    Effect.framesToVideo fr fps out ∉ pvfSetupTrace env opts vj := by
  unfold pvfSetupTrace
  cases opts.frame_folder <;> simp

lemma stitch_not_mem_pvfDetectTrace {env : Env} {opts : ProcessVideoOptions}
    {fj : String} {fr : List String} {fps : ℚ} {out : String} :
    Effect.framesToVideo fr fps out ∉ pvfDetectTrace env opts fj := by
  unfold pvfDetectTrace
  split <;> simp

lemma stitch_not_mem_extractedCleanup {env : Env} {opts : ProcessVideoOptions}
    {folder : String} {created : Bool} {files fr : List String} {fps : ℚ} {out : String} :
    Effect.framesToVideo fr fps out ∉ extractedCleanup env opts folder created files := by
  intro h
  rcases mem_extractedCleanup h with h | h | ⟨f, h⟩ <;> exact Effect.noConfusion h

lemma stitch_not_mem_renderedCleanup {env : Env} {opts : ProcessVideoOptions}
    {renderDir : String} {created : Bool} {o : String} {files fr : List String}
    {fps : ℚ} {out : String} :
    Effect.framesToVideo fr fps out ∉ renderedCleanup env opts renderDir created o files := by
  intro h
  rcases mem_renderedCleanup h with h | h | ⟨f, h⟩ <;> exact Effect.noConfusion h

/-- In the single-video path, every stitching effect uses rate = source fps
divided by the stride when one is set, and the source fps otherwise
(lines 184-191). -/
lemma stitch_rate_process_video {env : Env} {opts : ProcessVideoOptions}
    {fr : List String} {fps : ℚ} {out : String}
    (h : Effect.framesToVideo fr fps out ∈ (process_video env opts).1) :
    fps = strideFs env.fs opts.frame_sample := by
  by_cases hr : opts.render_output_video = true
  · by_cases hs : env.framesToVideoFails (pvOutputVideoStr opts) = true
    · rw [process_video_trace_stitchfail hr hs] at h
      simp [List.mem_append, stitch_not_mem_pvSetupTrace, stitch_not_mem_pvDetectTrace] at h
    · rw [Bool.not_eq_true] at hs
      rw [process_video_trace_render hr hs] at h
      simp [List.mem_append, stitch_not_mem_pvSetupTrace, stitch_not_mem_pvDetectTrace,
        stitch_not_mem_renderedCleanup, stitch_not_mem_extractedCleanup] at h
      exact h.2.1
  · rw [Bool.not_eq_true] at hr
    rw [process_video_trace_norender hr] at h
    simp [List.mem_append, stitch_not_mem_pvSetupTrace, stitch_not_mem_pvDetectTrace,
      stitch_not_mem_extractedCleanup] at h

/-- `process_video_folder` never stitches an output video: its body ends at
line 356, before the module-level fan-out block. -/
lemma stitch_not_mem_process_video_folder {env : Env} {opts : ProcessVideoOptions}
    {fr : List String} {fps : ℚ} {out : String} :
    Effect.framesToVideo fr fps out ∉ (process_video_folder env opts).1 := by
  intro h
  unfold process_video_folder at h
  split at h
  · simp at h
  · split at h
    · simp at h
    · split at h
      · simp at h
      · split at h
        · rw [List.mem_append] at h
          rcases h with h | h
          · exact absurd h stitch_not_mem_pvfSetupTrace
          · rw [List.mem_singleton] at h
            split at h <;> exact Effect.noConfusion h
        · split at h
          · simp only [List.mem_append] at h
            rcases h with (h | h) | h
            · exact absurd h stitch_not_mem_pvfSetupTrace
            · exact absurd h stitch_not_mem_pvfDetectTrace
            · simp at h
          · split at h
            · simp only [List.mem_append] at h
              rcases h with (h | h) | h
              · exact absurd h stitch_not_mem_pvfSetupTrace
              · exact absurd h stitch_not_mem_pvfDetectTrace
              · simp at h
            · split at h
              · simp only [List.mem_append] at h
                rcases h with ((h | h) | h) | h
                · exact absurd h stitch_not_mem_pvfSetupTrace
                · exact absurd h stitch_not_mem_pvfDetectTrace
                · simp at h
                · simp at h
              · rename_i hoc
                simp only [List.mem_append] at h
                rcases h with (((h | h) | h) | h) | h
                · exact absurd h stitch_not_mem_pvfSetupTrace
                · exact absurd h stitch_not_mem_pvfDetectTrace
                · simp at h
                · simp at h
                · rcases chooseT_shape hoc with ht | ⟨d, ht⟩ <;> subst ht <;> simp at h

/-- Recognizer for the `frames_to_video` stitching effect. -/
def isStitchEffect : Effect → Bool
  | Effect.framesToVideo _ _ _ => true
  | _ => false

/-- An environment extracting one frame from a 30 fps video. -/
def c8Env : Env := { baseEnv with frameFilenames := ["F/f1.jpg"] }

/-- Single-video options with rendering enabled and a sampling stride of 5. -/
def c8Opts : ProcessVideoOptions :=
  { input_video_file := "vid.mp4", frame_folder := some "F",
    frame_rendering_folder := some "R", render_output_video := true,
    output_video_file := some "out.mp4", output_json_file := some "res.json",
    keep_extracted_frames := true, keep_rendered_frames := true,
    frame_sample := some 5 }

/-- An input folder with two 30 fps videos of one frame each, where the first
video's stitching call would fail were it ever made. -/
def c3Env : Env :=
  { baseEnv with
    folderVideos := ["a.mp4", "b.mp4"], folderFrameNames := [["f1.jpg"], ["f2.jpg"]],
    folderFs := [30, 30], framesToVideoFails := fun p => p == "out/a.mp4" }

/-- Folder-mode options rendering into an explicit output folder. -/
def c3Opts : ProcessVideoOptions :=
  { input_video_file := "in", output_json_file := some "o/r.json",
    render_output_video := true, output_video_file := some "out" }

/-- C8 evaluated on both paths: the single-video path stitches at source fps
divided by the stride (30 / 5 = 6), but a folder run with rendering enabled,
valid videos and frames stitches nothing at all — `process_video_folder`
returns right after choosing the output folder, since the per-video fan-out
(lines 393-400) lies outside the function body — so the claimed per-video
folder-path stitching never happens. -/
theorem c8_code_bug_eval :
    c8Env.fs = 30 ∧ c8Opts.frame_sample = some 5 ∧
    strideFs c8Env.fs c8Opts.frame_sample = 6 ∧
    (process_video c8Env c8Opts).1.filter isStitchEffect =
      [Effect.framesToVideo ["R/f1.jpg"] (strideFs c8Env.fs c8Opts.frame_sample) "out.mp4"] ∧
    c3Opts.render_output_video = true ∧ c3Env.folderVideos.length = 2 ∧
    (process_video_folder c3Env c3Opts).2 = Except.ok () ∧
    (process_video_folder c3Env c3Opts).1.filter isStitchEffect = [] :=
  ⟨rfl, rfl, by norm_num [strideFs, c8Env, baseEnv, c8Opts], rfl, rfl, rfl, rfl, rfl⟩

/-- C3 evaluated at the failing input: a folder run with rendering enabled and
two valid videos, where the first video's stitching call is set up to fail.
The run returns normally, having performed no per-video stitching and reported
no failures — `process_video_folder`'s body ends at line 356, before the pool
fan-out — so there are no isolated workers and no post-pool failure report; and
`process_single_video` itself, were it ever called, raises NameError on the
undefined module-scope name `video_filenames` before any stitching. -/
theorem c3_code_bug_eval :
    c3Opts.render_output_video = true ∧
    c3Env.framesToVideoFails "out/a.mp4" = true ∧
    (process_video_folder c3Env c3Opts).2 = Except.ok () ∧
    (process_video_folder c3Env c3Opts).1 =
      [Effect.makedirs "o",
       Effect.makedirs "/tmp/process_camera_trap_video",
       Effect.makedirs "/tmp/process_camera_trap_video/u_U",
       Effect.makedirs "/tmp/process_camera_trap_video/in_frames_V",
       Effect.extractFramesFolder "in" "/tmp/process_camera_trap_video/in_frames_V",
       Effect.runDetector
         ["/tmp/process_camera_trap_video/in_frames_V/a.mp4/f1.jpg",
          "/tmp/process_camera_trap_video/in_frames_V/b.mp4/f2.jpg"],
       Effect.writeResults "o/r.frames.json" (FrameRateMeta.perVideo [30, 30]),
       Effect.aggregateResults "o/r.frames.json" "o/r.json",
       Effect.makedirs "/tmp/process_camera_trap_video/in_detections",
       Effect.renderFrames "o/r.frames.json" "/tmp/process_camera_trap_video/in_detections"
         "/tmp/process_camera_trap_video/in_frames_V",
       Effect.makedirs "out"] ∧
    (process_single_video "in/a.mp4" c3Opts "/tmp/process_camera_trap_video/in_detections"
      [] false "out" c3Env.folderFs c3Opts.frame_sample).2 =
      Except.error (PyError.nameError "video_filenames") := by
  decide

lemma reportNoVideos_not_mem_pvfSetupTrace {env : Env} {opts : ProcessVideoOptions}
    {vj x : String} : Effect.reportNoVideos x ∉ pvfSetupTrace env opts vj := by
  unfold pvfSetupTrace
  cases opts.frame_folder <;> simp

lemma reportNoFrames_not_mem_pvfSetupTrace {env : Env} {opts : ProcessVideoOptions}
    {vj x : String} : Effect.reportNoFramesExtracted x ∉ pvfSetupTrace env opts vj := by
  unfold pvfSetupTrace
  cases opts.frame_folder <;> simp

/-- C9: in folder mode, when no frames were extracted from any video the run
returns without raising, never invokes the detector, and reports exactly one of
the two distinguished non-fatal conditions: "no videos found" when the folder
held no videos, and the no-frames-extracted condition when videos were found but
none yielded frames. -/
theorem c9_no_frames_report (env : Env) (opts : ProcessVideoOptions) (vj : String)
    (hd : env.isdir opts.input_video_file = true)
    (hj : opts.output_json_file = some vj)
    (he : pyEndswith vj ".json" = true)
    (hempty : (pvfAllFrames env opts).isEmpty = true) :
    (process_video_folder env opts).2 = Except.ok () ∧
    (env.folderVideos.isEmpty = true →
      Effect.reportNoVideos opts.input_video_file ∈ (process_video_folder env opts).1 ∧
      Effect.reportNoFramesExtracted opts.input_video_file ∉
        (process_video_folder env opts).1) ∧
    (env.folderVideos.isEmpty = false →
      Effect.reportNoFramesExtracted opts.input_video_file ∈
        (process_video_folder env opts).1 ∧
      Effect.reportNoVideos opts.input_video_file ∉ (process_video_folder env opts).1) ∧
    (∀ imgs, Effect.runDetector imgs ∉ (process_video_folder env opts).1) := by
  have htr : (process_video_folder env opts).1 =
      pvfSetupTrace env opts vj ++
      [if env.folderVideos.isEmpty then Effect.reportNoVideos opts.input_video_file
       else Effect.reportNoFramesExtracted opts.input_video_file] ∧
      (process_video_folder env opts).2 = Except.ok () := by
    unfold process_video_folder
    rw [hd, hj]
    simp [he, hempty]
  refine ⟨htr.2, ?_, ?_, ?_⟩
  · intro hv
    rw [htr.1]
    simp [List.mem_append, hv, reportNoVideos_not_mem_pvfSetupTrace,
      reportNoFrames_not_mem_pvfSetupTrace]
  · intro hv
    rw [htr.1]
    simp [List.mem_append, hv, reportNoVideos_not_mem_pvfSetupTrace,
      reportNoFrames_not_mem_pvfSetupTrace]
  · intro imgs
    rw [htr.1]
    simp [List.mem_append, detector_not_mem_pvfSetupTrace]
    split <;> simp

/-- Concrete instance of `c9_no_frames_report` on an empty folder. -/
theorem c9_no_frames_report_witness :
    (pvfAllFrames baseEnv c2Opts).isEmpty = true ∧
    (process_video_folder baseEnv c2Opts).2 = Except.ok () ∧
    Effect.reportNoVideos c2Opts.input_video_file ∈
      (process_video_folder baseEnv c2Opts).1 :=
  have h := c9_no_frames_report baseEnv c2Opts "o/r.json" rfl rfl (by decide) (by decide)
  ⟨by decide, h.1, (h.2.1 rfl).1⟩

/-- The same environment with the cleanup-time failure switches (`os.remove`,
`shutil.rmtree`) replaced, leaving every other observable unchanged. -/
def withFails (env : Env) (f g : String → Bool) : Env :=
  { env with removeFails := f, rmtreeFails := g }

lemma withFails_rmtreeFails {env : Env} {f g : String → Bool} :
    (withFails env f g).rmtreeFails = g := rfl

lemma pvFrameFolder_withFails {env : Env} {opts : ProcessVideoOptions}
    {f g : String → Bool} :
    pvFrameFolder (withFails env f g) opts = pvFrameFolder env opts := rfl

lemma pvResults_withFails {env : Env} {opts : ProcessVideoOptions}
    {f g : String → Bool} :
    pvResults (withFails env f g) opts = pvResults env opts := rfl

lemma framesToVideoFails_withFails {env : Env} {f g : String → Bool} :
    (withFails env f g).framesToVideoFails = env.framesToVideoFails := rfl

/-- C6: exceptions raised while deleting extracted or rendered frames are caught
and reported as warnings and never change the outcome of `process_video`: the
returned value is identical under every pattern of cleanup-time deletion
failures, and on every run whose fatal stages succeed it is the frame-level
detection result; a failing forced deletion leaves a cleanup warning in the
trace. -/
theorem c6_cleanup_errors_harmless (env : Env) (opts : ProcessVideoOptions)
    (f g : String → Bool) :
    ((process_video (withFails env f g) opts).2 = (process_video env opts).2) ∧
    ((opts.render_output_video = true →
        env.framesToVideoFails (pvOutputVideoStr opts) = false) →
      (process_video env opts).2 = Except.ok (pvResults env opts)) ∧
    (opts.keep_extracted_frames = false →
      opts.force_extracted_frame_folder_deletion = true →
      g (pvFrameFolder env opts).1 = true →
      (opts.render_output_video = true →
        env.framesToVideoFails (pvOutputVideoStr opts) = false) →
      Effect.cleanupWarning (pvFrameFolder env opts).1 ∈
        (process_video (withFails env f g) opts).1) := by
  refine ⟨?_, ?_, ?_⟩
  · by_cases hr : opts.render_output_video = true
    · by_cases hs : env.framesToVideoFails (pvOutputVideoStr opts) = true
      · simp [process_video, hr, hs, framesToVideoFails_withFails]
      · rw [Bool.not_eq_true] at hs
        simp [process_video, hr, hs, framesToVideoFails_withFails, pvResults_withFails]
    · rw [Bool.not_eq_true] at hr
      simp [process_video, hr, pvResults_withFails]
  · intro hsr
    by_cases hr : opts.render_output_video = true
    · simp [process_video, hr, hsr hr]
    · rw [Bool.not_eq_true] at hr
      simp [process_video, hr]
  · intro hke hforce hg hsr
    have hw : Effect.cleanupWarning (pvFrameFolder env opts).1 ∈
        extractedCleanup (withFails env f g) opts (pvFrameFolder (withFails env f g) opts).1
          (pvFrameFolder (withFails env f g) opts).2 (withFails env f g).frameFilenames := by
      rw [pvFrameFolder_withFails]
      unfold extractedCleanup
      simp [hke, hforce, withFails_rmtreeFails, hg]
    by_cases hr : opts.render_output_video = true
    · have hs : (withFails env f g).framesToVideoFails (pvOutputVideoStr opts) = false :=
        hsr hr
      rw [process_video_trace_render hr hs]
      simp only [List.mem_append]
      exact Or.inr hw
    · rw [Bool.not_eq_true] at hr
      rw [process_video_trace_norender hr]
      simp only [List.mem_append]
      exact Or.inr hw

/-- Options for a run whose forced extracted-frames deletion fails. -/
def c6Opts : ProcessVideoOptions :=
  { input_video_file := "vid.mp4", force_extracted_frame_folder_deletion := true }

/-- Concrete instance of `c6_cleanup_errors_harmless`: with every deletion
failing, the outcome is unchanged and still the detection result, and a cleanup
warning is recorded. -/
theorem c6_cleanup_errors_harmless_witness :
    ((process_video (withFails baseEnv (fun _ => true) (fun _ => true)) c6Opts).2 =
      (process_video baseEnv c6Opts).2) ∧
    (process_video baseEnv c6Opts).2 = Except.ok (pvResults baseEnv c6Opts) ∧
    Effect.cleanupWarning (pvFrameFolder baseEnv c6Opts).1 ∈
      (process_video (withFails baseEnv (fun _ => true) (fun _ => true)) c6Opts).1 :=
  have h := c6_cleanup_errors_harmless baseEnv c6Opts (fun _ => true) (fun _ => true)
  ⟨h.1, h.2.1 (fun hr => Bool.noConfusion hr),
   h.2.2 rfl rfl rfl (fun hr => Bool.noConfusion hr)⟩

end MegaDetector
